import Mathlib

/-!
Verification of maestrowf's study construction core
(`maestrowf/datastructures/core/study.py`) against its specification.

The Python module is shallowly embedded below.  Collaborators that are not
part of the source file under review (the generic DAG container, the
StudyEnvironment, the ParameterGenerator, `apply_function`,
`create_parentdir`, and the relevant pieces of `os.path`) are modelled from
the specification's interface contracts (spec sections 4.3 and 6); each such
definition carries a doc comment starting with "Modelled from the spec".
Filesystem and clock effects are made explicit: `setup` takes the timestamp
string and a directory-creation oracle as arguments and reports the external
effects it performs.
-/

namespace Maestro

/-- The sentinel root-node name (`SOURCE = "_source"`, study.py line 45). -/
def SOURCE : String := "_source"

/-- Python exception kinds that the embedded code can raise. -/
inductive PyErr where
  | attributeError
  | keyError
deriving DecidableEq, Repr

/-- The `run` dictionary of a `StudyStep` (study.py lines 67-76).  The spec
(section 6) fixes the fields: `cmd`, `depends` (list of step names), `pre`,
`post`, `restart`, `nodes`, `procs`, `walltime`. -/
structure RunSpec where
  cmd : String
  depends : List String
  pre : String
  post : String
  restart : String
  nodes : String
  procs : String
  walltime : String
deriving DecidableEq, Repr

/-- `StudyStep` (study.py lines 51-114): name, description and the run spec. -/
structure StudyStep where
  name : String
  description : String
  run : RunSpec
deriving DecidableEq, Repr

/-- `StudyStep.__eq__` (study.py lines 91-105): equality of the `__dict__`s,
i.e. field-by-field structural equality. -/
def StudyStep.py_eq (a b : StudyStep) : Bool :=
  a.name == b.name && a.description == b.description &&
  a.run.cmd == b.run.cmd && a.run.depends == b.run.depends &&
  a.run.pre == b.run.pre && a.run.post == b.run.post &&
  a.run.restart == b.run.restart && a.run.nodes == b.run.nodes &&
  a.run.procs == b.run.procs && a.run.walltime == b.run.walltime

/-- `StudyStep.__ne__` (study.py lines 107-114): negation of `__eq__`. -/
def StudyStep.py_ne (a b : StudyStep) : Bool := !(a.py_eq b)

/-- Modelled from the spec: `apply_function` (maestrowf.utils, not under
src/) applies a substitution function to every field of the object's
`__dict__` (spec sections 4.1 and 9: a pure map over all templated fields,
returning a new value). -/
def applyFunction (f : String → String) (s : StudyStep) : StudyStep :=
  { name := f s.name
    description := f s.description
    run :=
      { cmd := f s.run.cmd
        depends := s.run.depends.map f
        pre := f s.run.pre
        post := f s.run.post
        restart := f s.run.restart
        nodes := f s.run.nodes
        procs := f s.run.procs
        walltime := f s.run.walltime } }

/-- `StudyStep.apply_parameters` (study.py lines 78-89): build a fresh step
whose `__dict__` is the substituted copy of the receiver's, and return
`(self != tmp, tmp)`.  The combination's `apply` method is abstracted as the
substitution function `f` (spec section 6). -/
def StudyStep.apply_parameters (s : StudyStep) (f : String → String) :
    Bool × StudyStep :=
  let tmp := applyFunction f s
  (s.py_ne tmp, tmp)

/-- An environment `Variable` (maestrowf.datastructures.environment, not
under src/).  Modelled from the spec: a named variable with a value (the
third constructor argument of `Variable('OUTPUT_PATH', out_path, '$')` is
its token prefix). -/
structure Variable where
  name : String
  value : String
  token : String
deriving DecidableEq, Repr

/-- Modelled from the spec: the StudyEnvironment collaborator (spec section
6): `find`, `add`, an is-set-up flag, `acquire_environment`, and the
substitution function `apply_environment`. -/
structure StudyEnvironment where
  vars : List Variable
  is_set_up : Bool
  subst : String → String

/-- `StudyEnvironment.find` -- first variable with the given name. -/
def StudyEnvironment.find (env : StudyEnvironment) (n : String) :
    Option Variable :=
  env.vars.find? (fun v => v.name == n)

/-- `StudyEnvironment.add` -- append a variable. -/
def StudyEnvironment.add (env : StudyEnvironment) (v : Variable) :
    StudyEnvironment :=
  { env with vars := env.vars ++ [v] }

/-- Overwrite the value of every variable named `n`.  This models Python
object aliasing: `self.output` is the same `Variable` object stored inside
the environment, so mutating `self.output.value` is visible there too. -/
def StudyEnvironment.set_value (env : StudyEnvironment) (n newval : String) :
    StudyEnvironment :=
  { env with
    vars := env.vars.map
      (fun v => if v.name == n then { v with value := newval } else v) }

/-- Modelled from the spec: the ParameterGenerator collaborator (spec
section 6): an iterable of combinations (each a finite name-to-value
assignment) plus `get_used_parameters`, reporting which declared parameters
a step template references. -/
structure ParamGen where
  combos : List (List (String × String))
  used : StudyStep → List String

/-- True when the string's first character is a slash. -/
def strStartsWithSlash (s : String) : Bool :=
  match s.toList with
  | c :: _ => c == '/'
  | [] => false

/-- True when the string's last character is a slash. -/
def strEndsWithSlash (s : String) : Bool :=
  s.toList.getLast? == some '/'

/-- Modelled from the spec: `os.path.join` for the two-argument uses in
study.py; an absolute second component replaces the first. -/
def pyJoin (a b : String) : String :=
  if strStartsWithSlash b then b
  else if strEndsWithSlash a then a ++ b
  else a ++ "/" ++ b

/-- Modelled from the spec: `os.path.abspath` relative to an ambient
(absolute) current working directory `cwd`; `"./"` and `"."` resolve to
`cwd` itself, already-absolute paths are kept.  Normalisation beyond
anchoring relative paths is not modelled. -/
def abspath (cwd p : String) : String :=
  if strStartsWithSlash p then p
  else if p == "." || p == "./" then cwd
  else pyJoin cwd p

/-- Python's `str.replace(" ", "_")` (single-character replacement). -/
def pyReplaceSpace (s : String) : String :=
  ⟨s.toList.map (fun c => if c == ' ' then '_' else c)⟩

/-- Modelled from the spec: the abstract-graph primitive the `Study` class
derives from (maestrowf.datastructures.dag, not under src/; interface per
spec sections 4.3 and 6).  `values` is the insertion-ordered name-to-value
mapping; `adjacency` the insertion-ordered edge list. -/
structure DAG where
  values : List (String × Option StudyStep)
  adjacency : List (String × String)
deriving Repr

/-- Whether the graph has a node with the given name. -/
def DAG.hasNode (g : DAG) (n : String) : Bool :=
  g.values.any (fun p => p.1 == n)

/-- Modelled from the spec: `add_node(name, value)` inserts the node; an
already-present name is left unchanged. -/
def DAG.add_node (g : DAG) (n : String) (v : Option StudyStep) : DAG :=
  if g.hasNode n then g else { g with values := g.values ++ [(n, v)] }

/-- Out-neighbours of a node, in edge insertion order. -/
def DAG.neighbors (g : DAG) (v : String) : List String :=
  (g.adjacency.filter (fun e => e.1 == v)).map Prod.snd

/-- Fuel-bounded recursive depth-first search: `path` is the preorder visit
sequence, `parents` records, for each visited node, the node that discovered
it (`none` for the root). -/
def DAG.dfsAux (g : DAG) :
    Nat → Option String → String →
    List String × List (String × Option String) →
    List String × List (String × Option String)
  | 0, _, _, st => st
  | Nat.succ fuel, par, v, (path, parents) =>
    if path.contains v then (path, parents)
    else (g.neighbors v).foldl (fun st w => g.dfsAux fuel (some v) w st)
      (path ++ [v], parents ++ [(v, par)])

/-- Modelled from the spec: `dfs_subtree` (spec section 4.3): a
deterministic depth-first spanning traversal from `src`, returning the
preorder path and the discovery parents; every node is visited at most once
and parents are emitted before their children. -/
def DAG.dfs_subtree (g : DAG) (src : String) :
    List String × List (String × Option String) :=
  g.dfsAux (g.values.length + g.adjacency.length + 1) none src ([], [])

/-- Whether `b` is reachable from `a` (used for the cycle check). -/
def DAG.reaches (g : DAG) (a b : String) : Bool :=
  ((g.dfs_subtree a).1).contains b

/-- Modelled from the spec: `add_edge(src, dst)` fails if either endpoint is
unknown or the edge would create a cycle (spec sections 3 and 6); a
duplicate edge is not inserted twice. -/
def DAG.add_edge (g : DAG) (src dst : String) : Except String DAG :=
  if !(g.hasNode src) || !(g.hasNode dst) then
    Except.error ("Attempted to create edge between non-existent nodes")
  else if g.reaches dst src then
    Except.error ("Edge would create a cycle in the graph")
  else
    Except.ok { g with adjacency := g.adjacency ++ [(src, dst)] }

/-- The `Study` class (study.py lines 117-466), deriving from `DAG`.
`issetup`, `restart_limit` and `submission_attempts` embed `_issetup`,
`_restart_limit` and `_submission_attempts`.  `description` is a dictionary
(it is splatted into `add_description`). -/
structure Study extends DAG where
  name : String
  description : List (String × String)
  environment : Option StudyEnvironment
  parameters : Option ParamGen
  output : Option Variable
  issetup : Bool
  restart_limit : Nat
  submission_attempts : Nat

/-- `Study.output_path` (study.py lines 218-225): `self.output.value`;
accessing it on a study whose `output` attribute was never initialised
raises AttributeError. -/
def Study.output_path (s : Study) : Except PyErr String :=
  match s.output with
  | none => Except.error PyErr.attributeError
  | some v => Except.ok v.value

/-- One dependency-edge insertion of `add_step`: add the edge
`(dep, name)`, propagating the configuration error. -/
def Study.addDepEdge (nm : String) (st : Study) (dep : String) :
    Except String Study :=
  match st.toDAG.add_edge dep nm with
  | Except.error e => Except.error e
  | Except.ok d => Except.ok { st with toDAG := d }

/-- `Study.add_step` (study.py lines 227-250): add the node; if the step's
`depends` entry is non-empty add one edge per named dependency, otherwise
add the edge from `SOURCE`. -/
def Study.add_step (s : Study) (step : StudyStep) : Except String Study :=
  if step.run.depends.isEmpty then
    Study.addDepEdge step.name
      { s with toDAG := s.toDAG.add_node step.name (some step) } SOURCE
  else
    step.run.depends.foldlM (Study.addDepEdge step.name)
      { s with toDAG := s.toDAG.add_node step.name (some step) }

/-- `Study.__init__` (study.py lines 158-216).  `cwd` models the process's
current working directory consulted by `os.path.abspath`.  Deep copies are
value semantics here.  If the environment is given, the `OUTPUT_PATH`
variable is isolated: created (defaulting to the absolute cwd) and added
when absent, normalised to an absolute path when present.  The `SOURCE`
node is added, the setup flag cleared, and the steps added in order via
`add_step` (whose configuration errors propagate out of construction). -/
def Study.init (cwd nm : String) (descr : List (String × String))
    (studyenv : Option StudyEnvironment) (parameters : Option ParamGen)
    (steps : List StudyStep) : Except String Study :=
  let envout : Option StudyEnvironment × Option Variable :=
    match studyenv with
    | none => (none, none)
    | some env =>
      match env.find "OUTPUT_PATH" with
      | none =>
        let out : Variable := ⟨"OUTPUT_PATH", abspath cwd "./", "$"⟩
        (some (env.add out), some out)
      | some v =>
        let v2 : Variable := { v with value := abspath cwd v.value }
        (some (env.set_value "OUTPUT_PATH" v2.value), some v2)
  let base : Study :=
    { toDAG := (DAG.mk [] []).add_node SOURCE none
      name := nm
      description := descr
      environment := envout.1
      parameters := parameters
      output := envout.2
      issetup := false
      restart_limit := 0
      submission_attempts := 0 }
  steps.foldlM (fun st stp => st.add_step stp) base

/-- `Study.walk_study` (study.py lines 252-265): walk the DFS spanning tree
from `SOURCE`, yielding `(parents[node], node, self.values[node])` for each
node on the path.  Note the second component is the node NAME (a string);
the step object is the third component. -/
def Study.walk_study (s : Study) :
    List (Option String × String × Option StudyStep) :=
  let pr := s.toDAG.dfs_subtree SOURCE
  pr.1.map (fun n => ((pr.2.lookup n).getD none, n, (s.values.lookup n).getD none))

/-- The externally visible side effects of `setup`. -/
inductive Effect where
  | mkdir (path : String)
  | acquire
deriving DecidableEq, Repr

/-- `Study.setup` (study.py lines 267-323).  `ts` models
`time.strftime("%Y%m%d-%H%M%S")` and `mkdir_ok` the success of
`create_parentdir` (maestrowf.utils, not under src/; modelled from the spec
as a fallible directory-creation call).  Behaviour, in source order: return
`True` immediately when already set up; record the two budgets; append
`<name-with-underscores>_<ts>` to the output value (AttributeError when the
`output` attribute was never initialised, i.e. the study was built without
an environment); acquire the environment unless already set up
(AttributeError when `environment` is `None`); attempt to create the output
directory, returning `False` on failure (the exception is caught); apply
the environment substitution to every non-`None` node value; flag the study
as set up and return `True`.  The effect list records the directory
creation attempt and the environment acquisition. -/
def Study.setup (s : Study) (submission_attempts restart_limit : Nat)
    (ts : String) (mkdir_ok : String → Bool) :
    Except PyErr (Bool × Study × List Effect) :=
  if s.issetup then Except.ok (true, s, [])
  else
    let s1 : Study :=
      { s with submission_attempts := submission_attempts,
               restart_limit := restart_limit }
    match s1.output with
    | none => Except.error PyErr.attributeError
    | some out =>
      let out_name := pyReplaceSpace s1.name ++ "_" ++ ts
      let newval := pyJoin out.value out_name
      let s2 : Study :=
        { s1 with
          output := some { out with value := newval },
          environment :=
            s1.environment.map (fun env => env.set_value "OUTPUT_PATH" newval) }
      match s2.environment with
      | none => Except.error PyErr.attributeError
      | some env =>
        let acquired := !env.is_set_up
        let env2 := if env.is_set_up then env else { env with is_set_up := true }
        let effs := (if acquired then [Effect.acquire] else []) ++
          [Effect.mkdir newval]
        let s3 : Study := { s2 with environment := some env2 }
        if mkdir_ok newval then
          let s4 : Study :=
            { s3 with
              values := s3.values.map
                (fun p => (p.1, p.2.map (applyFunction env2.subst))),
              issetup := true }
          Except.ok (true, s4, effs)
        else
          Except.ok (false, s3, effs)

/-- A node of the concrete execution plan. -/
structure ExecNode where
  name : String
  value : Option StudyStep
  workspace : String
  restart_limit : Nat
deriving DecidableEq, Repr

/-- Modelled from the spec: the ExecutionGraph consumer (spec section 6):
`add_description(metadata)`, `add_node(name, value)`,
`add_step(name, value, workspace_root, restart_limit)`,
`add_edge(parent, child)`. -/
structure ExecutionGraph where
  description : List (String × String)
  nodes : List ExecNode
  edges : List (String × String)
deriving DecidableEq, Repr

/-- `add_node` of the concrete plan: a bare node with no workspace and a
zero restart limit. -/
def ExecutionGraph.add_node (g : ExecutionGraph) (n : String)
    (v : Option StudyStep) : ExecutionGraph :=
  { g with nodes := g.nodes ++ [⟨n, v, "", 0⟩] }

/-- `add_step` of the concrete plan: a node bound to a workspace root and a
restart limit. -/
def ExecutionGraph.add_step (g : ExecutionGraph) (n : String)
    (v : Option StudyStep) (ws : String) (rl : Nat) : ExecutionGraph :=
  { g with nodes := g.nodes ++ [⟨n, v, ws, rl⟩] }

/-- `add_edge` of the concrete plan. -/
def ExecutionGraph.add_edge (g : ExecutionGraph) (a b : String) :
    ExecutionGraph :=
  { g with edges := g.edges ++ [(a, b)] }

/-- The loop body of `_setup_linear` (study.py lines 403-418): `SOURCE` is
added as a bare root node; every other walked node gets restart limit
`_restart_limit` when its step declares a restart command (a non-empty
`restart` entry) and `0` otherwise, is added via `add_step` bound to the
study's output value, and receives the single edge from its spanning-tree
parent.  A `None` value for a non-`SOURCE` node would raise AttributeError
at `node.run`. -/
def linBody (s : Study) (out : Variable) (g : ExecutionGraph)
    (e : Option String × String × Option StudyStep) :
    Except PyErr ExecutionGraph :=
  if e.2.1 == SOURCE then Except.ok (g.add_node SOURCE none)
  else
    match e.2.2 with
    | none => Except.error PyErr.attributeError
    | some node =>
      let rlimit := if node.run.restart == "" then 0 else s.restart_limit
      Except.ok ((g.add_step e.2.1 (some node) out.value rlimit).add_edge
        (e.1.getD "") e.2.1)

/-- `Study._setup_linear` (study.py lines 386-420): build an ExecutionGraph
with the study's description, fold the walk through `linBody`, and return
the output value together with the graph. -/
def Study.setup_linear (s : Study) : Except PyErr (String × ExecutionGraph) :=
  match s.output with
  | none => Except.error PyErr.attributeError
  | some out =>
    match s.walk_study.foldlM (linBody s out)
        ({ description := s.description, nodes := [], edges := [] } :
          ExecutionGraph) with
    | Except.error e => Except.error e
    | Except.ok dag => Except.ok (out.value, dag)

/-- `Study._setup_parameterized` (study.py lines 325-384).  `walk_study`
yields node-NAME strings as its second component, and the very first
statement of the loop body for a non-`SOURCE` node (the `logger.info` call
at lines 355-357) evaluates `step.name` on that string, which raises
AttributeError in Python; the later per-combination expansion loop (lines
378-381) is literally `pass`, so even without the crash no node or edge is
ever added to the returned ExecutionGraph.  The embedding therefore reads
`self.output.value` (line 337, AttributeError when `output` was never set),
then errors as soon as the walk contains a non-`SOURCE` node, and otherwise
returns the empty (description-only) graph. -/
def Study.setup_parameterized (s : Study) :
    Except PyErr (String × ExecutionGraph) :=
  match s.output with
  | none => Except.error PyErr.attributeError
  | some out =>
    if s.walk_study.any (fun e => !(e.2.1 == SOURCE)) then
      Except.error PyErr.attributeError
    else
      Except.ok (out.value,
        ({ description := s.description, nodes := [], edges := [] } :
          ExecutionGraph))

/-- Errors that `stage` can raise: the explicit usage `Exception`, or a
Python-level error propagating from the staging helpers. -/
inductive StageErr where
  | exception (msg : String)
  | pyerr (e : PyErr)
deriving DecidableEq, Repr

/-- Relabel the error of an `Except`. -/
def exceptMapErr (f : α → β) : Except α γ → Except β γ
  | Except.ok a => Except.ok a
  | Except.error e => Except.error (f e)

/-- `Study.stage` (study.py lines 422-466): raise
`Exception("Study <name> is not set up for staging. ...")` when `setup` has
not completed; otherwise dispatch on the presence of a parameter subsystem:
the parameterized path when `self.parameters` is truthy, the linear path
otherwise. -/
def Study.stage (s : Study) : Except StageErr (String × ExecutionGraph) :=
  if !s.issetup then
    Except.error (StageErr.exception
      ("Study " ++ s.name ++ " is not set up for staging. " ++
       "Run setup before attempting to stage."))
  else
    match s.parameters with
    | some _ => exceptMapErr StageErr.pyerr s.setup_parameterized
    | none => exceptMapErr StageErr.pyerr s.setup_linear

/-- The `used_params`-building loop of `_setup_parameterized` (study.py
lines 350-376) under the charitable reading that `step.name` denotes the
walked node's name (as a raw `str`, line 356 would raise AttributeError
first, see `Study.setup_parameterized`).  Faithful to the source in every
other respect: `SOURCE` entries are skipped; `step_params` comes from
`self.parameters.get_used_parameters(node)` (line 365); `used_params[name]`
is assigned `used_params[parent] | step_params[name]` ONLY when the parent
is not `SOURCE` (lines 366-367 have no else branch, and `used_params[parent]`
raises KeyError when the parent has no entry); the `logger.info` call at
line 375 then eagerly evaluates `used_params[step.name]`, raising KeyError
whenever no entry was assigned.  The workspace-token scan of lines 369-372
touches only `used_spaces` and is omitted.  Accessing
`self.parameters.get_used_parameters` with no parameter subsystem would
raise AttributeError. -/
def Study.used_params_loop (s : Study) :
    Except PyErr (List (String × List String)) :=
  match s.parameters with
  | none => Except.error PyErr.attributeError
  | some pgen =>
    s.walk_study.foldlM
      (fun acc e =>
        if e.2.1 == SOURCE then Except.ok acc
        else
          let name := e.2.1
          let sp : List String :=
            match e.2.2 with
            | some node => pgen.used node
            | none => []
          let acc2 : Except PyErr (List (String × List String)) :=
            match e.1 with
            | some p =>
              if p == SOURCE then Except.ok acc
              else
                match acc.lookup p with
                | some pp => Except.ok (acc ++ [(name, pp ∪ sp)])
                | none => Except.error PyErr.keyError
            | none => Except.error PyErr.keyError
          match acc2 with
          | Except.error e2 => Except.error e2
          | Except.ok acc3 =>
            match acc3.lookup name with
            | some _ => Except.ok acc3
            | none => Except.error PyErr.keyError)
      []

/-! ## Theorems -/

/-- `__eq__` (dictionary equality) coincides with structural equality. -/
theorem StudyStep.py_eq_iff (a b : StudyStep) : a.py_eq b = true ↔ a = b := by
  cases a with
  | mk an ad ar =>
    cases b with
    | mk bn bd br =>
      cases ar
      cases br
      simp only [StudyStep.py_eq, Bool.and_eq_true, beq_iff_eq,
        StudyStep.mk.injEq, RunSpec.mk.injEq]
      tauto

/-- A successful `add_edge` leaves the nodes unchanged and appends the
edge. -/
theorem DAG.add_edge_ok {g g2 : DAG} {a b : String}
    (h : g.add_edge a b = Except.ok g2) :
    g2.values = g.values ∧ g2.adjacency = g.adjacency ++ [(a, b)] := by
  unfold DAG.add_edge at h
  split at h
  · cases h
  · split at h
    · cases h
    · cases h
      exact ⟨rfl, rfl⟩

/-- `add_node` preserves existing nodes. -/
theorem DAG.hasNode_add_node {g : DAG} {n m : String} {v : Option StudyStep}
    (h : g.hasNode m = true) : (g.add_node n v).hasNode m = true := by
  unfold DAG.add_node
  split
  · exact h
  · unfold DAG.hasNode at h ⊢
    simp only [List.any_append]
    simp [h]

/-- A successful dependency-edge insertion: every non-graph field is kept,
the node set is kept, and exactly the edge `(dep, nm)` is appended. -/
theorem Study.addDepEdge_ok {nm : String} {st st2 : Study} {dep : String}
    (h : Study.addDepEdge nm st dep = Except.ok st2) :
    st2.name = st.name ∧ st2.description = st.description ∧
    st2.environment = st.environment ∧ st2.parameters = st.parameters ∧
    st2.output = st.output ∧ st2.issetup = st.issetup ∧
    st2.restart_limit = st.restart_limit ∧
    st2.submission_attempts = st.submission_attempts ∧
    st2.values = st.values ∧ st2.adjacency = st.adjacency ++ [(dep, nm)] := by
  unfold Study.addDepEdge at h
  split at h
  next => cases h
  next d heq =>
    cases h
    have hd := DAG.add_edge_ok heq
    exact ⟨rfl, rfl, rfl, rfl, rfl, rfl, rfl, rfl, hd.1, hd.2⟩

/-- `add_node` never touches the edges. -/
theorem DAG.adjacency_add_node (g : DAG) (n : String) (v : Option StudyStep) :
    (g.add_node n v).adjacency = g.adjacency := by
  unfold DAG.add_node
  split <;> rfl

/-- `hasNode` only depends on the node set. -/
theorem DAG.hasNode_of_values_eq {g1 g2 : DAG} {m : String}
    (hv : g2.values = g1.values) (h : g1.hasNode m = true) :
    g2.hasNode m = true := by
  unfold DAG.hasNode at h ⊢
  rw [hv]
  exact h

/-- Folding the dependency edges of `add_step`: every non-graph field and
the node set are kept, and exactly one edge per dependency is appended, in
order. -/
theorem Study.addDepEdge_foldlM {nm : String} :
    ∀ (deps : List String) (st st2 : Study),
      deps.foldlM (Study.addDepEdge nm) st = Except.ok st2 →
      st2.name = st.name ∧ st2.description = st.description ∧
      st2.environment = st.environment ∧ st2.parameters = st.parameters ∧
      st2.output = st.output ∧ st2.issetup = st.issetup ∧
      st2.restart_limit = st.restart_limit ∧
      st2.submission_attempts = st.submission_attempts ∧
      st2.values = st.values ∧
      st2.adjacency = st.adjacency ++ deps.map (fun d => (d, nm))
  | [], st, st2, h => by
    simp only [List.foldlM_nil] at h
    cases h
    simp
  | dep :: deps, st, st2, h => by
    simp only [List.foldlM_cons] at h
    cases heq : Study.addDepEdge nm st dep with
    | error e =>
      rw [heq] at h
      exact Except.noConfusion h
    | ok mid =>
      rw [heq] at h
      have h1 := Study.addDepEdge_ok heq
      have h2 := Study.addDepEdge_foldlM deps mid st2 h
      refine ⟨h2.1.trans h1.1, (h2.2.1).trans h1.2.1,
        (h2.2.2.1).trans h1.2.2.1, (h2.2.2.2.1).trans h1.2.2.2.1,
        (h2.2.2.2.2.1).trans h1.2.2.2.2.1,
        (h2.2.2.2.2.2.1).trans h1.2.2.2.2.2.1,
        (h2.2.2.2.2.2.2.1).trans h1.2.2.2.2.2.2.1,
        (h2.2.2.2.2.2.2.2.1).trans h1.2.2.2.2.2.2.2.1,
        (h2.2.2.2.2.2.2.2.2.1).trans h1.2.2.2.2.2.2.2.2.1, ?_⟩
      rw [h2.2.2.2.2.2.2.2.2.2, h1.2.2.2.2.2.2.2.2.2]
      simp [List.append_assoc]

/-- A successful `add_step`: non-graph fields are kept, nodes are
preserved, and the adjacency gains either the single `SOURCE` edge (empty
dependency list) or one edge per named dependency. -/
theorem Study.add_step_ok {s : Study} {stp : StudyStep} {s2 : Study}
    (h : s.add_step stp = Except.ok s2) :
    s2.name = s.name ∧ s2.description = s.description ∧
    s2.environment = s.environment ∧ s2.parameters = s.parameters ∧
    s2.output = s.output ∧ s2.issetup = s.issetup ∧
    s2.restart_limit = s.restart_limit ∧
    s2.submission_attempts = s.submission_attempts ∧
    (∀ n, s.hasNode n = true → s2.hasNode n = true) ∧
    ((stp.run.depends = [] ∧
        s2.adjacency = s.adjacency ++ [(SOURCE, stp.name)]) ∨
     (stp.run.depends ≠ [] ∧
        s2.adjacency = s.adjacency ++
          stp.run.depends.map (fun d => (d, stp.name)))) := by
  unfold Study.add_step at h
  split at h
  next hemp =>
    have h1 := Study.addDepEdge_ok h
    refine ⟨h1.1, h1.2.1, h1.2.2.1, h1.2.2.2.1, h1.2.2.2.2.1,
      h1.2.2.2.2.2.1, h1.2.2.2.2.2.2.1, h1.2.2.2.2.2.2.2.1, ?_, ?_⟩
    · intro n hn
      exact DAG.hasNode_of_values_eq h1.2.2.2.2.2.2.2.2.1
        (DAG.hasNode_add_node hn)
    · have ha := h1.2.2.2.2.2.2.2.2.2
      dsimp only at ha
      rw [DAG.adjacency_add_node] at ha
      exact Or.inl ⟨List.isEmpty_iff.mp hemp, ha⟩
  next hemp =>
    have h1 := Study.addDepEdge_foldlM stp.run.depends _ s2 h
    refine ⟨h1.1, h1.2.1, h1.2.2.1, h1.2.2.2.1, h1.2.2.2.2.1,
      h1.2.2.2.2.2.1, h1.2.2.2.2.2.2.1, h1.2.2.2.2.2.2.2.1, ?_, ?_⟩
    · intro n hn
      exact DAG.hasNode_of_values_eq h1.2.2.2.2.2.2.2.2.1
        (DAG.hasNode_add_node hn)
    · have ha := h1.2.2.2.2.2.2.2.2.2
      dsimp only at ha
      rw [DAG.adjacency_add_node] at ha
      exact Or.inr ⟨fun hc => hemp (List.isEmpty_iff.mpr hc), ha⟩

/-- Folding `add_step` over a list of steps keeps every non-graph field and
preserves nodes. -/
theorem Study.steps_foldlM_ok :
    ∀ (steps : List StudyStep) (st st2 : Study),
      steps.foldlM (fun a b => a.add_step b) st = Except.ok st2 →
      st2.name = st.name ∧ st2.description = st.description ∧
      st2.environment = st.environment ∧ st2.parameters = st.parameters ∧
      st2.output = st.output ∧ st2.issetup = st.issetup ∧
      st2.restart_limit = st.restart_limit ∧
      st2.submission_attempts = st.submission_attempts ∧
      (∀ n, st.hasNode n = true → st2.hasNode n = true)
  | [], st, st2, h => by
    simp only [List.foldlM_nil] at h
    cases h
    exact ⟨rfl, rfl, rfl, rfl, rfl, rfl, rfl, rfl, fun _ hn => hn⟩
  | stp :: steps, st, st2, h => by
    simp only [List.foldlM_cons] at h
    cases heq : st.add_step stp with
    | error e =>
      rw [heq] at h
      exact Except.noConfusion h
    | ok mid =>
      rw [heq] at h
      have h1 := Study.add_step_ok heq
      have h2 := Study.steps_foldlM_ok steps mid st2 h
      exact ⟨h2.1.trans h1.1, h2.2.1.trans h1.2.1, h2.2.2.1.trans h1.2.2.1,
        h2.2.2.2.1.trans h1.2.2.2.1, h2.2.2.2.2.1.trans h1.2.2.2.2.1,
        h2.2.2.2.2.2.1.trans h1.2.2.2.2.2.1,
        h2.2.2.2.2.2.2.1.trans h1.2.2.2.2.2.2.1,
        h2.2.2.2.2.2.2.2.1.trans h1.2.2.2.2.2.2.2.1,
        fun n hn => h2.2.2.2.2.2.2.2.2 n (h1.2.2.2.2.2.2.2.2.1 n hn)⟩

/-- A successfully constructed Study: its scalar fields, the
`OUTPUT_PATH` isolation performed on the environment, the cleared setup
flag, and the presence of the `SOURCE` node. -/
theorem Study.init_ok {cwd nm : String} {descr : List (String × String)}
    {studyenv : Option StudyEnvironment} {ps : Option ParamGen}
    {steps : List StudyStep} {s : Study}
    (h : Study.init cwd nm descr studyenv ps steps = Except.ok s) :
    s.name = nm ∧ s.description = descr ∧
    s.environment = (match studyenv with
      | none => none
      | some env =>
        match env.find "OUTPUT_PATH" with
        | none => some (env.add ⟨"OUTPUT_PATH", abspath cwd "./", "$"⟩)
        | some v =>
          some (env.set_value "OUTPUT_PATH" (abspath cwd v.value))) ∧
    s.output = (match studyenv with
      | none => none
      | some env =>
        match env.find "OUTPUT_PATH" with
        | none => some ⟨"OUTPUT_PATH", abspath cwd "./", "$"⟩
        | some v => some { v with value := abspath cwd v.value }) ∧
    s.parameters = ps ∧ s.issetup = false ∧ s.hasNode SOURCE = true := by
  unfold Study.init at h
  have h2 := Study.steps_foldlM_ok steps _ s h
  refine ⟨h2.1, h2.2.1, ?_, ?_, h2.2.2.2.1, h2.2.2.2.2.2.1, ?_⟩
  · rw [h2.2.2.1]
    cases studyenv with
    | none => rfl
    | some env =>
      cases henv : env.find "OUTPUT_PATH" <;> simp [henv]
  · rw [h2.2.2.2.2.1]
    cases studyenv with
    | none => rfl
    | some env =>
      cases henv : env.find "OUTPUT_PATH" <;> simp [henv]
  · exact h2.2.2.2.2.2.2.2.2 SOURCE rfl

/-- Adding a variable that was not previously found makes it findable. -/
theorem StudyEnvironment.find_add_of_none {env : StudyEnvironment}
    {v : Variable} (h : env.find v.name = none) :
    (env.add v).find v.name = some v := by
  unfold StudyEnvironment.find at h ⊢
  unfold StudyEnvironment.add
  rw [List.find?_append, h]
  simp

/-- C5: every Study contains the `SOURCE` node from construction onward
(construction inserts it before any step is added, and `add_step` never
removes nodes), and a successful `add_step` adds one edge from each named
dependency when the step's dependency list is non-empty, and otherwise the
single edge from `SOURCE`, so every step lacking an explicit dependency is
edged from `SOURCE`. -/
theorem source_node_and_dependency_edges :
    (∀ (cwd nm : String) (descr : List (String × String))
       (studyenv : Option StudyEnvironment) (ps : Option ParamGen)
       (steps : List StudyStep) (s : Study),
       Study.init cwd nm descr studyenv ps steps = Except.ok s →
       s.hasNode SOURCE = true) ∧
    (∀ (s : Study) (stp : StudyStep) (s2 : Study),
       s.add_step stp = Except.ok s2 →
       (s.hasNode SOURCE = true → s2.hasNode SOURCE = true) ∧
       (stp.run.depends ≠ [] →
         ∀ dep ∈ stp.run.depends, (dep, stp.name) ∈ s2.adjacency) ∧
       (stp.run.depends = [] → (SOURCE, stp.name) ∈ s2.adjacency)) := by
  constructor
  · intro cwd nm descr studyenv ps steps s h
    exact (Study.init_ok h).2.2.2.2.2.2
  · intro s stp s2 h
    have h1 := Study.add_step_ok h
    refine ⟨h1.2.2.2.2.2.2.2.2.1 SOURCE, ?_, ?_⟩
    · intro hne dep hdep
      rcases h1.2.2.2.2.2.2.2.2.2 with ⟨hd, _⟩ | ⟨_, ha⟩
      · exact absurd hd hne
      · rw [ha]
        refine List.mem_append_right _ ?_
        exact List.mem_map_of_mem _ hdep
    · intro hd
      rcases h1.2.2.2.2.2.2.2.2.2 with ⟨_, ha⟩ | ⟨hne, _⟩
      · rw [ha]
        exact List.mem_append_right _ (List.mem_singleton.mpr rfl)
      · exact absurd hd hne

/-- C6: calling `stage` on a study whose setup has not completed fails
immediately with the usage `Exception` whose message names the study, and
no plan is returned. -/
theorem stage_before_setup_usage_error (s : Study)
    (h : s.issetup = false) :
    s.stage = Except.error (StageErr.exception
      ("Study " ++ s.name ++ " is not set up for staging. " ++
       "Run setup before attempting to stage.")) := by
  unfold Study.stage
  rw [h]
  rfl

/-- C9: a Study built with an environment that lacks `OUTPUT_PATH` gets a
fresh `OUTPUT_PATH` variable whose value is the absolute current working
directory, added to the environment, and `output_path` returns it; when
`OUTPUT_PATH` is present its value is normalised to an absolute path. -/
theorem output_path_isolation :
    ∀ (cwd nm : String) (descr : List (String × String))
      (env : StudyEnvironment) (ps : Option ParamGen)
      (steps : List StudyStep) (s : Study),
      Study.init cwd nm descr (some env) ps steps = Except.ok s →
      (env.find "OUTPUT_PATH" = none →
        s.output = some ⟨"OUTPUT_PATH", cwd, "$"⟩ ∧
        s.output_path = Except.ok cwd ∧
        ∃ env2, s.environment = some env2 ∧
          env2.find "OUTPUT_PATH" = some ⟨"OUTPUT_PATH", cwd, "$"⟩) ∧
      (∀ v, env.find "OUTPUT_PATH" = some v →
        s.output = some { v with value := abspath cwd v.value } ∧
        s.output_path = Except.ok (abspath cwd v.value)) := by
  intro cwd nm descr env ps steps s h
  have h1 := Study.init_ok h
  constructor
  · intro hfind
    have hcwd : abspath cwd "./" = cwd := rfl
    have hout : s.output = some ⟨"OUTPUT_PATH", cwd, "$"⟩ := by
      rw [h1.2.2.2.1]
      simp [hfind, hcwd]
    refine ⟨hout, ?_, ?_⟩
    · unfold Study.output_path
      rw [hout]
    · refine ⟨env.add ⟨"OUTPUT_PATH", cwd, "$"⟩, ?_, ?_⟩
      · rw [h1.2.2.1]
        simp [hfind, hcwd]
      · exact StudyEnvironment.find_add_of_none hfind
  · intro v hfind
    have hout : s.output = some { v with value := abspath cwd v.value } := by
      rw [h1.2.2.2.1]
      simp [hfind]
    refine ⟨hout, ?_⟩
    unfold Study.output_path
    rw [hout]

/-- C10: a Study constructed with `studyenv=None` never initialises the
`output` attribute, so `output_path` and `setup` raise AttributeError and
`stage` raises the usage Exception (setup can never have completed) --
there is no fallback to a default output root. -/
theorem no_environment_no_output :
    ∀ (cwd nm : String) (descr : List (String × String))
      (ps : Option ParamGen) (steps : List StudyStep) (s : Study),
      Study.init cwd nm descr none ps steps = Except.ok s →
      s.output = none ∧
      s.output_path = Except.error PyErr.attributeError ∧
      (∀ a r ts mk, s.setup a r ts mk = Except.error PyErr.attributeError) ∧
      s.stage = Except.error (StageErr.exception
        ("Study " ++ s.name ++ " is not set up for staging. " ++
         "Run setup before attempting to stage.")) := by
  intro cwd nm descr ps steps s h
  have h1 := Study.init_ok h
  have hout : s.output = none := by
    rw [h1.2.2.2.1]
  have hsetupflag : s.issetup = false := h1.2.2.2.2.2.1
  refine ⟨hout, ?_, ?_, ?_⟩
  · unfold Study.output_path
    rw [hout]
  · intro a r ts mk
    unfold Study.setup
    rw [hsetupflag]
    dsimp only
    rw [hout]
    rfl
  · unfold Study.stage
    rw [hsetupflag]
    rfl

/-- C7: when the output directory cannot be created, `setup` catches the
exception and returns the failure result `False` to the caller; nothing
propagates past this layer. -/
theorem setup_mkdir_failure_returns_false
    (s : Study) (out : Variable) (env : StudyEnvironment)
    (a r : Nat) (ts : String) (mk : String → Bool)
    (hset : s.issetup = false) (hout : s.output = some out)
    (henv : s.environment = some env)
    (hmk : mk (pyJoin out.value (pyReplaceSpace s.name ++ "_" ++ ts)) = false) :
    ∃ s2 effs, s.setup a r ts mk = Except.ok (false, s2, effs) := by
  unfold Study.setup
  rw [hset]
  dsimp only
  rw [hout]
  dsimp only
  rw [henv]
  dsimp only [Option.map]
  rw [hmk]
  exact ⟨_, _, rfl⟩

/-- A first `setup` call that reports success leaves the study flagged as
set up. -/
theorem Study.setup_ok_true_issetup {s s2 : Study} {a r : Nat} {ts : String}
    {mk : String → Bool} {effs : List Effect}
    (h : s.setup a r ts mk = Except.ok (true, s2, effs)) :
    s2.issetup = true := by
  unfold Study.setup at h
  split at h
  next hset =>
    cases h
    exact hset
  next hset =>
    dsimp only at h
    split at h
    next => exact Except.noConfusion h
    next out hout =>
      split at h
      next => exact Except.noConfusion h
      next env henv =>
        split at h
        next hmk =>
          cases h
          rfl
        next hmk =>
          simp at h

/-- C8: `setup` is idempotent -- after a call that returned success, a
second call (with any arguments) is a no-op: it returns success
immediately, leaves the study unchanged, and performs no effect at all (no
output-path suffix append, no directory creation, no environment
resolution). -/
theorem setup_idempotent_after_success
    (s : Study) (a r : Nat) (ts : String) (mk : String → Bool)
    (a2 r2 : Nat) (ts2 : String) (mk2 : String → Bool)
    (s2 : Study) (effs : List Effect)
    (h : s.setup a r ts mk = Except.ok (true, s2, effs)) :
    s2.setup a2 r2 ts2 mk2 = Except.ok (true, s2, []) := by
  have h2 : s2.issetup = true := Study.setup_ok_true_issetup h
  unfold Study.setup
  rw [h2]
  rfl

/-- The concrete node that linear staging emits for one walk entry: the
bare root for `SOURCE`, and otherwise the step bound to the workspace root
with restart limit `rl` exactly when it declares a restart command. -/
def linNode (rl : Nat) (ws : String)
    (e : Option String × String × Option StudyStep) : ExecNode :=
  if e.2.1 == SOURCE then ⟨SOURCE, none, "", 0⟩
  else
    ⟨e.2.1, e.2.2, ws,
      match e.2.2 with
      | some n => if n.run.restart == "" then 0 else rl
      | none => 0⟩

/-- The name of an emitted linear node is the walked node's name. -/
theorem linNode_name (rl : Nat) (ws : String)
    (e : Option String × String × Option StudyStep) :
    (linNode rl ws e).name = e.2.1 := by
  unfold linNode
  split
  next hsrc => exact (eq_of_beq hsrc).symm
  next => rfl

/-- Folding `linBody` over walk entries whose non-`SOURCE` values are all
present appends one `linNode` per entry and one spanning-tree edge per
non-`SOURCE` entry. -/
theorem linBody_foldlM (s : Study) (out : Variable) :
    ∀ (L : List (Option String × String × Option StudyStep))
      (g : ExecutionGraph),
      (∀ e ∈ L, e.2.1 ≠ SOURCE → e.2.2 ≠ none) →
      L.foldlM (linBody s out) g = Except.ok
        { g with
          nodes := g.nodes ++ L.map (linNode s.restart_limit out.value),
          edges := g.edges ++
            (L.filter (fun e => !(e.2.1 == SOURCE))).map
              (fun e => (e.1.getD "", e.2.1)) }
  | [], g, _ => by
    rw [List.foldlM_nil]
    simp only [List.filter_nil, List.map_nil, List.append_nil]
    rfl
  | e :: L, g, hv => by
    rw [List.foldlM_cons]
    by_cases hsrc : e.2.1 == SOURCE
    · have hb : linBody s out g e = Except.ok (g.add_node SOURCE none) := by
        unfold linBody
        rw [if_pos hsrc]
      rw [hb]
      show L.foldlM (linBody s out) (g.add_node SOURCE none) = _
      rw [linBody_foldlM s out L _ (fun e2 h2 => hv e2 (List.mem_cons_of_mem _ h2))]
      simp [ExecutionGraph.add_node, linNode, hsrc]
    · have hne : e.2.1 ≠ SOURCE := by
        intro hh
        exact hsrc (by rw [hh]; exact beq_self_eq_true _)
      obtain ⟨node, hnode⟩ : ∃ n, e.2.2 = some n := by
        cases hcc : e.2.2 with
        | none => exact absurd hcc (hv e (List.mem_cons_self e L) hne)
        | some n => exact ⟨n, rfl⟩
      have hb : linBody s out g e = Except.ok
          ((g.add_step e.2.1 (some node) out.value
            (if node.run.restart == "" then 0 else s.restart_limit)).add_edge
            (e.1.getD "") e.2.1) := by
        unfold linBody
        rw [if_neg (by simpa using hsrc), hnode]
      rw [hb]
      show L.foldlM (linBody s out) _ = _
      rw [linBody_foldlM s out L _ (fun e2 h2 => hv e2 (List.mem_cons_of_mem _ h2))]
      simp [ExecutionGraph.add_step, ExecutionGraph.add_edge, linNode,
        hsrc, hnode]

/-- C3 (amended): staging a set-up study with no parameter subsystem walks
the DFS spanning tree and emits exactly one concrete node per abstract
step plus the equivalent root for `SOURCE` (given the traversal's spanning
contract, stated as the permutation hypothesis), assigns each node's
restart limit per the restart-command rule and binds it to the study's
global workspace root (both inside `linNode`), and emits exactly one
concrete edge per non-`SOURCE` step -- the spanning-tree edge from its
traversal parent -- rather than one edge per abstract edge. -/
theorem linear_staging_characterisation (s : Study) (out : Variable)
    (hset : s.issetup = true) (hpar : s.parameters = none)
    (hout : s.output = some out)
    (hperm : (s.walk_study.map (fun e => e.2.1)).Perm
      (s.values.map Prod.fst))
    (hval : ∀ e ∈ s.walk_study, e.2.1 ≠ SOURCE → e.2.2 ≠ none) :
    ∃ g, s.stage = Except.ok (out.value, g) ∧
      g.nodes = s.walk_study.map (linNode s.restart_limit out.value) ∧
      (g.nodes.map ExecNode.name).Perm (s.values.map Prod.fst) ∧
      g.edges = (s.walk_study.filter (fun e => !(e.2.1 == SOURCE))).map
        (fun e => (e.1.getD "", e.2.1)) := by
  refine ⟨{ description := s.description,
            nodes := s.walk_study.map (linNode s.restart_limit out.value),
            edges := (s.walk_study.filter (fun e => !(e.2.1 == SOURCE))).map
              (fun e => (e.1.getD "", e.2.1)) }, ?_, rfl, ?_, rfl⟩
  · unfold Study.stage Study.setup_linear
    rw [hset, hpar, hout]
    simp only [Bool.not_true, Bool.false_eq_true, if_false]
    rw [linBody_foldlM s out s.walk_study _ hval]
    rfl
  · have hnames : (s.walk_study.map (linNode s.restart_limit out.value)).map
        ExecNode.name = s.walk_study.map (fun e => e.2.1) := by
      rw [List.map_map]
      exact List.map_congr_left (fun e _ => linNode_name _ _ e)
    rw [hnames]
    exact hperm

/-- C4: for every StudyStep and every combination substitution,
`apply_parameters` returns a pair `(changed, new_template)` with the
receiver left untouched (the embedding is a pure function of the receiver,
matching the source, which writes only into the fresh `tmp` object), and
`changed` is true exactly when the new template differs from the receiver
under structural equality over all fields. -/
theorem apply_parameters_changed_iff_ne (s : StudyStep) (f : String → String) :
    (s.apply_parameters f).1 = true ↔ (s.apply_parameters f).2 ≠ s := by
  show (s.py_ne (applyFunction f s)) = true ↔ applyFunction f s ≠ s
  rw [StudyStep.py_ne, Bool.not_eq_true', ← Bool.not_eq_true]
  rw [not_iff_comm, StudyStep.py_eq_iff, not_not]
  exact ⟨fun h => h.symm, fun h => h.symm⟩

/-! ## Concrete studies for claim-level evaluations and witnesses -/

/-- Fallback study for the extraction matches below (never actually
reached: every pipeline below succeeds). -/
def dummyStudy : Study :=
  { toDAG := ⟨[], []⟩, name := "dummy", description := [],
    environment := none, parameters := none, output := none,
    issetup := false, restart_limit := 0, submission_attempts := 0 }

/-- A step referencing no declared parameter. -/
def step_c1 : StudyStep :=
  ⟨"s1", "no-parameter step", ⟨"echo hello", [], "", "", "", "", "", ""⟩⟩

/-- Two combinations over the declared parameter X; `get_used_parameters`
reports no used parameter for any template. -/
def pgen_c1 : ParamGen :=
  ⟨[[("X", "1")], [("X", "2")]], fun _ => []⟩

/-- Parameterized study with the single zero-parameter step `s1`, built
through `init` and successfully `setup`. -/
def demo_c1 : Study :=
  match Study.init "/w1" "one" [] (some ⟨[], true, fun x => x⟩)
      (some pgen_c1) [step_c1] with
  | Except.ok st =>
    match st.setup 1 1 "T" (fun _ => true) with
    | Except.ok (_, st2, _) => st2
    | Except.error _ => st
  | Except.error _ => dummyStudy

/-- C1: evaluating the staged parameterized study at the failing input.
The claim says the zero-parameter step `s1` yields exactly one concrete
node; the code instead raises AttributeError before emitting any node
(`walk_study` yields name strings and `_setup_parameterized` evaluates
`step.name` on one; its expansion loop is `pass` in any case), so the
returned plan does not exist at all. -/
theorem parameterized_zero_param_step_crashes :
    demo_c1.stage = Except.error (StageErr.pyerr PyErr.attributeError) ∧
    Option.map (fun p => p.combos.length) demo_c1.parameters = some 2 ∧
    Option.map (fun p => p.used step_c1) demo_c1.parameters = some [] :=
  ⟨rfl, rfl, rfl⟩

/-- Step `A`, no dependency, referencing parameter X. -/
def step_c2a : StudyStep :=
  ⟨"A", "uses X", ⟨"echo $(X)", [], "", "", "", "", "", ""⟩⟩

/-- Step `B`, depending on `A`, referencing parameter Y. -/
def step_c2b : StudyStep :=
  ⟨"B", "uses Y", ⟨"echo $(Y)", ["A"], "", "", "", "", "", ""⟩⟩

/-- Four combinations over X and Y; `A` uses X, `B` uses Y. -/
def pgen_c2 : ParamGen :=
  ⟨[[("X", "1"), ("Y", "a")], [("X", "1"), ("Y", "b")],
    [("X", "2"), ("Y", "a")], [("X", "2"), ("Y", "b")]],
   fun st => if st.name == "A" then ["X"] else ["Y"]⟩

/-- Parameterized two-step chain, built through `init` and `setup`. -/
def demo_c2 : Study :=
  match Study.init "/w2" "two" [] (some ⟨[], true, fun x => x⟩)
      (some pgen_c2) [step_c2a, step_c2b] with
  | Except.ok st =>
    match st.setup 1 1 "T" (fun _ => true) with
    | Except.ok (_, st2, _) => st2
    | Except.error _ => st
  | Except.error _ => dummyStudy

/-- C2: evaluating the `used_params` computation at the failing input.
The claim says `used_params` is defined on every step, monotone along
every dependency edge, and empty-based for `SOURCE`-parented steps; the
loop instead never assigns `used_params` for the `SOURCE`-parented step
`A` (lines 366-367 have no else branch) and raises KeyError at the read
on line 375, so the mapping the claim quantifies over is never built. -/
theorem used_params_loop_keyerror_on_source_child :
    demo_c2.used_params_loop = Except.error PyErr.keyError ∧
    (SOURCE, "A") ∈ demo_c2.adjacency ∧
    ("A", "B") ∈ demo_c2.adjacency :=
  ⟨rfl, by decide, by decide⟩

/-- Diamond steps for the C3 counterexample: `C3s` depends on both `A3`
and `B3`. -/
def step_c3a : StudyStep :=
  ⟨"A3", "a", ⟨"echo a", [], "", "", "", "", "", ""⟩⟩

def step_c3b : StudyStep :=
  ⟨"B3", "b", ⟨"echo b", [], "", "", "", "", "", ""⟩⟩

def step_c3c : StudyStep :=
  ⟨"C3", "c", ⟨"echo c", ["A3", "B3"], "", "", "", "", "", ""⟩⟩

/-- Parameter-free diamond study, built through `init` and `setup`. -/
def demo_c3 : Study :=
  match Study.init "/w" "demo" [] (some ⟨[], true, fun x => x⟩) none
      [step_c3a, step_c3b, step_c3c] with
  | Except.ok st =>
    match st.setup 1 2 "T" (fun _ => true) with
    | Except.ok (_, st2, _) => st2
    | Except.error _ => st
  | Except.error _ => dummyStudy

/-- C3 counterexample: the abstract graph of the diamond study has four
edges, among them `(B3, C3)`, but linear staging emits only the three
spanning-tree edges, so the claimed 1:1 mirror of every abstract edge
fails: the abstract edge `(B3, C3)` has no concrete counterpart. -/
theorem linear_staging_edge_mirror_counterexample :
    Except.map (fun r => r.2.edges) demo_c3.stage =
      Except.ok [(SOURCE, "A3"), ("A3", "C3"), (SOURCE, "B3")] ∧
    ("B3", "C3") ∈ demo_c3.adjacency ∧
    ("B3", "C3") ∉ [(SOURCE, "A3"), ("A3", "C3"), (SOURCE, "B3")] :=
  ⟨rfl, by decide, by decide⟩

/-- Chain steps for the C3 witness; `wa` declares a restart command. -/
def step_c3wa : StudyStep :=
  ⟨"wa", "a", ⟨"echo a", [], "", "", "restart a", "", "", ""⟩⟩

def step_c3wb : StudyStep :=
  ⟨"wb", "b", ⟨"echo b", ["wa"], "", "", "", "", "", ""⟩⟩

/-- Parameter-free two-step chain, built through `init` and `setup`. -/
def demo_c3w : Study :=
  match Study.init "/w3" "w3" [] (some ⟨[], true, fun x => x⟩) none
      [step_c3wa, step_c3wb] with
  | Except.ok st =>
    match st.setup 1 5 "T" (fun _ => true) with
    | Except.ok (_, st2, _) => st2
    | Except.error _ => st
  | Except.error _ => dummyStudy

theorem linear_staging_characterisation_witness :
    demo_c3w.issetup = true ∧ demo_c3w.parameters = none ∧
    demo_c3w.output = some ⟨"OUTPUT_PATH", "/w3/w3_T", "$"⟩ ∧
    (demo_c3w.walk_study.map (fun e => e.2.1)).Perm
      (demo_c3w.values.map Prod.fst) ∧
    (∀ e ∈ demo_c3w.walk_study, e.2.1 ≠ SOURCE → e.2.2 ≠ none) ∧
    (∃ g, demo_c3w.stage = Except.ok ("/w3/w3_T", g) ∧
      g.nodes = demo_c3w.walk_study.map
        (linNode demo_c3w.restart_limit "/w3/w3_T") ∧
      (g.nodes.map ExecNode.name).Perm (demo_c3w.values.map Prod.fst) ∧
      g.edges = (demo_c3w.walk_study.filter
        (fun e => !(e.2.1 == SOURCE))).map
          (fun e => (e.1.getD "", e.2.1))) :=
  ⟨rfl, rfl, rfl, by decide, by decide,
   linear_staging_characterisation demo_c3w ⟨"OUTPUT_PATH", "/w3/w3_T", "$"⟩
     rfl rfl rfl (by decide) (by decide)⟩

def step_c5a : StudyStep :=
  ⟨"a5", "a", ⟨"echo a", [], "", "", "", "", "", ""⟩⟩

def step_c5b : StudyStep :=
  ⟨"b5", "b", ⟨"echo b", [], "", "", "", "", "", ""⟩⟩

def step_c5c : StudyStep :=
  ⟨"c5", "c", ⟨"echo c", ["a5"], "", "", "", "", "", ""⟩⟩

def demo_c5 : Study :=
  match Study.init "/w5" "five" [] none none [step_c5a] with
  | Except.ok st => st
  | Except.error _ => dummyStudy

def demo_c5b : Study :=
  match demo_c5.add_step step_c5b with
  | Except.ok st => st
  | Except.error _ => dummyStudy

def demo_c5c : Study :=
  match demo_c5b.add_step step_c5c with
  | Except.ok st => st
  | Except.error _ => dummyStudy

theorem source_node_and_dependency_edges_witness :
    Study.init "/w5" "five" [] none none [step_c5a] = Except.ok demo_c5 ∧
    demo_c5.hasNode SOURCE = true ∧
    demo_c5.add_step step_c5b = Except.ok demo_c5b ∧
    demo_c5b.hasNode SOURCE = true ∧
    (SOURCE, "b5") ∈ demo_c5b.adjacency ∧
    demo_c5b.add_step step_c5c = Except.ok demo_c5c ∧
    ("a5", "c5") ∈ demo_c5c.adjacency := by
  have h1 := source_node_and_dependency_edges.1 "/w5" "five" [] none none
    [step_c5a] demo_c5 rfl
  have h2 := source_node_and_dependency_edges.2 demo_c5 step_c5b demo_c5b rfl
  have h3 := source_node_and_dependency_edges.2 demo_c5b step_c5c demo_c5c rfl
  exact ⟨rfl, h1, rfl, h2.1 h1, h2.2.2 rfl, rfl,
    h3.2.1 (by decide) "a5" (by decide)⟩

def demo_c6 : Study :=
  { toDAG := ⟨[(SOURCE, none)], []⟩, name := "six", description := [],
    environment := none, parameters := none, output := none,
    issetup := false, restart_limit := 0, submission_attempts := 0 }

theorem stage_before_setup_usage_error_witness :
    demo_c6.issetup = false ∧
    demo_c6.stage = Except.error (StageErr.exception
      "Study six is not set up for staging. Run setup before attempting to stage.") :=
  ⟨rfl, stage_before_setup_usage_error demo_c6 rfl⟩

def demo_c7 : Study :=
  { toDAG := ⟨[(SOURCE, none)], []⟩, name := "seven", description := [],
    environment := some ⟨[⟨"OUTPUT_PATH", "/o7", "$"⟩], true, fun x => x⟩,
    parameters := none, output := some ⟨"OUTPUT_PATH", "/o7", "$"⟩,
    issetup := false, restart_limit := 0, submission_attempts := 0 }

theorem setup_mkdir_failure_returns_false_witness :
    demo_c7.issetup = false ∧
    demo_c7.output = some ⟨"OUTPUT_PATH", "/o7", "$"⟩ ∧
    demo_c7.environment =
      some ⟨[⟨"OUTPUT_PATH", "/o7", "$"⟩], true, fun x => x⟩ ∧
    (fun _ : String => false)
      (pyJoin "/o7" (pyReplaceSpace "seven" ++ "_" ++ "T")) = false ∧
    (∃ s2 effs, demo_c7.setup 3 4 "T" (fun _ : String => false) =
      Except.ok (false, s2, effs)) :=
  ⟨rfl, rfl, rfl, rfl,
   setup_mkdir_failure_returns_false demo_c7 ⟨"OUTPUT_PATH", "/o7", "$"⟩
     ⟨[⟨"OUTPUT_PATH", "/o7", "$"⟩], true, fun x => x⟩ 3 4 "T"
     (fun _ : String => false) rfl rfl rfl rfl⟩

def demo_c8 : Study :=
  { toDAG := ⟨[(SOURCE, none)], []⟩, name := "eight", description := [],
    environment := some ⟨[], true, fun x => x⟩, parameters := none,
    output := some ⟨"OUTPUT_PATH", "/o8", "$"⟩,
    issetup := false, restart_limit := 0, submission_attempts := 0 }

/-- The study state after the first successful `setup` of `demo_c8`. -/
def demo_c8_after : Study :=
  match demo_c8.setup 1 1 "T" (fun _ => true) with
  | Except.ok (_, st, _) => st
  | Except.error _ => demo_c8

theorem setup_idempotent_after_success_witness :
    demo_c8.setup 1 1 "T" (fun _ => true) =
      Except.ok (true, demo_c8_after, [Effect.mkdir "/o8/eight_T"]) ∧
    demo_c8_after.setup 9 9 "U" (fun _ => false) =
      Except.ok (true, demo_c8_after, []) :=
  ⟨rfl,
   setup_idempotent_after_success demo_c8 1 1 "T" (fun _ => true) 9 9 "U"
     (fun _ => false) demo_c8_after [Effect.mkdir "/o8/eight_T"] rfl⟩

def demo_c9 : Study :=
  match Study.init "/w9" "nine" [] (some ⟨[], true, fun x => x⟩) none [] with
  | Except.ok st => st
  | Except.error _ => dummyStudy

theorem output_path_isolation_witness :
    Study.init "/w9" "nine" [] (some ⟨[], true, fun x => x⟩) none [] =
      Except.ok demo_c9 ∧
    (⟨[], true, fun x => x⟩ : StudyEnvironment).find "OUTPUT_PATH" = none ∧
    demo_c9.output = some ⟨"OUTPUT_PATH", "/w9", "$"⟩ ∧
    demo_c9.output_path = Except.ok "/w9" := by
  have h := (output_path_isolation "/w9" "nine" [] ⟨[], true, fun x => x⟩
    none [] demo_c9 rfl).1 rfl
  exact ⟨rfl, rfl, h.1, h.2.1⟩

def demo_c10 : Study :=
  match Study.init "/wx" "ten" [] none none [] with
  | Except.ok st => st
  | Except.error _ => dummyStudy

theorem no_environment_no_output_witness :
    Study.init "/wx" "ten" [] none none [] = Except.ok demo_c10 ∧
    demo_c10.output = none ∧
    demo_c10.output_path = Except.error PyErr.attributeError ∧
    demo_c10.setup 1 1 "T" (fun _ => true) =
      Except.error PyErr.attributeError ∧
    demo_c10.stage = Except.error (StageErr.exception
      "Study ten is not set up for staging. Run setup before attempting to stage.") := by
  have h := no_environment_no_output "/wx" "ten" [] none [] demo_c10 rfl
  exact ⟨rfl, h.1, h.2.1, h.2.2.1 1 1 "T" (fun _ => true), h.2.2.2⟩

end Maestro
